import Mathlib

/-
Verification development for the TX Blueprint System (TXB): a shallow
embedding of src/TXBlueprintSystem.cpp.

Modelling conventions:
  * uint8_t opcodes are Fin 256.
  * C++ float is modelled as Rat; the sample behaviors only add and
    multiply small literals, where the abstract arithmetic is what the
    code expresses.
  * void* pointers are modelled as Option Nat (nullable abstract address).
  * std::function is nullable: TXNodeFunction is Option TXNodeFn, where
    none is a default-constructed (empty) std::function.
  * The unordered_map of the registry is a total function into Option:
    none means the key is absent.
  * A node behavior receives the context by mutable reference, reads the
    two input slots and writes the output slot (slot SP-2, which is also
    input slot 0; a behavior that writes nothing leaves that slot equal to
    input 0).  Host side effects (printf) are modelled as an emitted list.
  * Execute's local `TXValue Stack[64]` is uninitialized memory: the
    embedding takes its indeterminate initial contents as a parameter.
    SP starts at 0 exactly as in the source.  The source indexes
    Stack[SP-2] with no bounds check; the embedding totalizes that access:
    an index below 0 is a stackUnderflow fault and an index at or past 64
    is a stackOverflow fault, instead of an out-of-bounds read.
  * The debug assert in TXNodeRegistry::Get is the unknownOpcode fault;
    GetND models the NDEBUG build, where operator[] inserts a
    default-constructed empty function.  Invoking an empty std::function
    (std::bad_function_call) is the badFunctionCall fault.
-/

/-- TXValueType from the source: the closed set of value kinds. -/
inductive TXValueType where
  | None
  | Int
  | Float
  | Bool
  | Vector3
  | Pointer
deriving DecidableEq

/-- The active member of the TXValue union (the union has members Int,
Float, Bool, Ptr; uninit models indeterminate contents, e.g. of a
default-constructed TXValue, whose union is uninitialized). -/
inductive TXPayload where
  | uninit
  | int (v : Int)
  | float (v : Rat)
  | bool (v : Bool)
  | ptr (v : Option Nat)
deriving DecidableEq

/-- TXValue from the source: discriminant plus union.  The source field
`Type` is spelled `Ty` because `Type` is reserved in Lean. -/
structure TXValue where
  Ty : TXValueType
  payload : TXPayload
deriving DecidableEq

instance : Inhabited TXValue := ⟨⟨TXValueType.None, TXPayload.uninit⟩⟩

/-- TXOpCode = uint8_t. -/
abbrev TXOpCode := Fin 256

/-- TXNodeID = uint32_t. -/
abbrev TXNodeID := Fin 4294967296

/-- TXPinID = uint16_t. -/
abbrev TXPinID := Fin 65536

/-- TXExecutionContext from the source: DeltaTime and an opaque UserData
pointer. -/
structure TXExecutionContext where
  DeltaTime : Rat
  UserData : Option Nat
deriving DecidableEq

/-- TXBlueprintNode from the source (static node description; unused by
the VM, kept for completeness). -/
structure TXBlueprintNode where
  ID : TXNodeID
  OpCode : TXOpCode
  InputCount : Fin 65536
  OutputCount : Fin 65536

/-- TXBlueprintBytecode from the source: instruction sequence plus a
constant pool. -/
structure TXBlueprintBytecode where
  Instructions : List TXOpCode
  Constants : List TXValue

/-- A non-empty node behavior: it gets the context, reads the two input
slots, and yields the updated context, the value left in the output slot
(slot SP-2), and the host output it emitted. -/
abbrev TXNodeFn :=
  TXExecutionContext → TXValue → TXValue → TXExecutionContext × TXValue × List Rat

/-- TXNodeFunction = std::function: possibly empty. -/
abbrev TXNodeFunction := Option TXNodeFn

/-- The state of TXNodeRegistry::NodeFunctions (unordered_map as a total
function; none = key absent). -/
abbrev TXNodeRegistry := TXOpCode → Option TXNodeFunction

/-- The registry before any registration. -/
def emptyRegistry : TXNodeRegistry := fun _ => none

/-- TXNodeRegistry::RegisterNode: NodeFunctions[opcode] = fn
(insert-or-overwrite). -/
def RegisterNode (reg : TXNodeRegistry) (op : TXOpCode) (fn : TXNodeFunction) :
    TXNodeRegistry :=
  fun o => if o = op then some fn else reg o

/-- Execution faults of the embedding.  unknownOpcode is the failed
assert in TXNodeRegistry::Get; stackUnderflow / stackOverflow are the
totalized out-of-bounds accesses to Stack[64]; badFunctionCall is
std::bad_function_call from invoking an empty std::function. -/
inductive TXFault where
  | stackUnderflow (op : TXOpCode)
  | stackOverflow (op : TXOpCode)
  | unknownOpcode (op : TXOpCode)
  | badFunctionCall (op : TXOpCode)
deriving DecidableEq

/-- TXNodeRegistry::Get, debug build: assert(NodeFunctions.count(opcode))
faults when the key is absent, otherwise the stored function is
returned. -/
def Get (reg : TXNodeRegistry) (op : TXOpCode) : Except TXFault TXNodeFunction :=
  match reg op with
  | some fn => Except.ok fn
  | none => Except.error (TXFault.unknownOpcode op)

/-- TXNodeRegistry::Get, NDEBUG build: the assert is compiled out and
NodeFunctions[opcode] inserts a default-constructed (empty) function when
the key is absent, returning a reference to it.  Result: the possibly
updated map and the returned function. -/
def GetND (reg : TXNodeRegistry) (op : TXOpCode) :
    TXNodeRegistry × TXNodeFunction :=
  match reg op with
  | some fn => (reg, fn)
  | none => (fun o => if o = op then some none else reg o, none)

/-- What one Execute call produces: the opcodes whose behaviors were
invoked (in order), the host output emitted, and either a fault or the
final context, stack array and SP. -/
structure ExecOutcome where
  trace : List TXOpCode
  output : List Rat
  result : Except TXFault (TXExecutionContext × Array TXValue × Int)

/-- The loop body of TXBlueprintVM::Execute, one iteration per remaining
instruction: Op = *IP++; Fn = Registry.Get(Op);
Fn(Context, &Stack[SP-2], &Stack[SP-2]); SP--.  The read of slots SP-2 and
SP-1 and the write of slot SP-2 are totalized to faults outside [0, 64). -/
def execLoop (reg : TXNodeRegistry) :
    List TXOpCode → TXExecutionContext → Array TXValue → Int → ExecOutcome
  | [], ctx, stack, sp => ⟨[], [], Except.ok (ctx, stack, sp)⟩
  | op :: rest, ctx, stack, sp =>
    match Get reg op with
    | Except.error e => ⟨[], [], Except.error e⟩
    | Except.ok none => ⟨[], [], Except.error (TXFault.badFunctionCall op)⟩
    | Except.ok (some fn) =>
      if sp < 2 then ⟨[], [], Except.error (TXFault.stackUnderflow op)⟩
      else if 64 < sp then ⟨[], [], Except.error (TXFault.stackOverflow op)⟩
      else
        let i := (sp - 2).toNat
        let r := fn ctx (stack.getD i default) (stack.getD (i + 1) default)
        let tail := execLoop reg rest r.1 (stack.setD i r.2.1) (sp - 1)
        ⟨op :: tail.trace, r.2.2 ++ tail.output, tail.result⟩

/-- TXBlueprintVM::Execute: IP runs over Bytecode.Instructions, the local
64-slot stack starts with indeterminate contents (the initStack
parameter) and SP = 0. -/
def Execute (reg : TXNodeRegistry) (Bytecode : TXBlueprintBytecode)
    (Context : TXExecutionContext) (initStack : Array TXValue) : ExecOutcome :=
  execLoop reg Bytecode.Instructions Context initStack 0

/-- Reading the Float member of the union (the only member the sample
behaviors read); reading a non-active member is undefined in C++ and
totalized here to 0. -/
def floatPayload (v : TXValue) : Rat :=
  match v.payload with
  | TXPayload.float f => f
  | _ => 0

def TX_OP_ADD_FLOAT : TXOpCode := 1
def TX_OP_MUL_FLOAT : TXOpCode := 2
def TX_OP_PRINT_FLOAT : TXOpCode := 3

/-- The TX_OP_ADD_FLOAT lambda: Out->Type = Float;
Out->Float = In[0].Float + In[1].Float. -/
def addFloatFn : TXNodeFn := fun ctx in0 in1 =>
  (ctx, ⟨TXValueType.Float, TXPayload.float (floatPayload in0 + floatPayload in1)⟩, [])

/-- The TX_OP_MUL_FLOAT lambda: Out->Type = Float;
Out->Float = In[0].Float * In[1].Float. -/
def mulFloatFn : TXNodeFn := fun ctx in0 in1 =>
  (ctx, ⟨TXValueType.Float, TXPayload.float (floatPayload in0 * floatPayload in1)⟩, [])

/-- The TX_OP_PRINT_FLOAT lambda: printf of In[0].Float; it writes nothing
to Out, so the output slot keeps its old contents, which is input 0. -/
def printFloatFn : TXNodeFn := fun ctx in0 _ =>
  (ctx, in0, [floatPayload in0])

/-- RegisterCoreNodes applied to a registry state. -/
def RegisterCoreNodes (reg : TXNodeRegistry) : TXNodeRegistry :=
  RegisterNode
    (RegisterNode (RegisterNode reg TX_OP_ADD_FLOAT (some addFloatFn))
      TX_OP_MUL_FLOAT (some mulFloatFn))
    TX_OP_PRINT_FLOAT (some printFloatFn)

/-- The registry after RegisterCoreNodes on the fresh singleton. -/
def coreRegistry : TXNodeRegistry := RegisterCoreNodes emptyRegistry

/-- A concrete context, as built in ExampleBlueprint (DeltaTime = 0.016f,
UserData = nullptr). -/
def ctx0 : TXExecutionContext := ⟨16 / 1000, none⟩

/-- One possible content of the uninitialized 64-slot stack array. -/
def st0 : Array TXValue := Array.mkArray 64 default

/-- A 64-slot stack array whose bottom three slots hold the floats 2, 3, 4
(the values the spec scenario wants pre-seeded, bottom to top). -/
def seededStack : Array TXValue :=
  (((Array.mkArray 64 default).setD 0 ⟨TXValueType.Float, TXPayload.float 2⟩).setD 1
      ⟨TXValueType.Float, TXPayload.float 3⟩).setD 2
    ⟨TXValueType.Float, TXPayload.float 4⟩

/-- The logical stack contents of one Execute outcome: the slots from 0 up
to SP (the observable residual stack; slots at or above SP are dead). -/
def stackView (stack : Array TXValue) (sp : Int) : List TXValue :=
  (List.range sp.toNat).map fun k => stack.getD k default

/-- The observable part of an outcome: invocation trace, emitted output,
and fault or (final context, logical stack, final SP). -/
def observe (o : ExecOutcome) :
    List TXOpCode × List Rat ×
      Except TXFault (TXExecutionContext × List TXValue × Int) :=
  (o.trace, o.output, o.result.map fun r => (r.1, stackView r.2.1 r.2.2, r.2.2))

/-- The outcome suffered no stack underflow and no stack overflow fault. -/
def noStackFault (o : ExecOutcome) : Prop :=
  ∀ op, o.result ≠ Except.error (TXFault.stackUnderflow op) ∧
    o.result ≠ Except.error (TXFault.stackOverflow op)

theorem execLoop_cons_unknown (reg : TXNodeRegistry) (op : TXOpCode)
    (rest : List TXOpCode) (ctx : TXExecutionContext) (stack : Array TXValue)
    (sp : Int) (hf : reg op = none) :
    execLoop reg (op :: rest) ctx stack sp =
      ⟨[], [], Except.error (TXFault.unknownOpcode op)⟩ := by
  simp [execLoop, Get, hf]

theorem execLoop_cons_empty (reg : TXNodeRegistry) (op : TXOpCode)
    (rest : List TXOpCode) (ctx : TXExecutionContext) (stack : Array TXValue)
    (sp : Int) (hf : reg op = some none) :
    execLoop reg (op :: rest) ctx stack sp =
      ⟨[], [], Except.error (TXFault.badFunctionCall op)⟩ := by
  simp [execLoop, Get, hf]

theorem execLoop_cons_underflow (reg : TXNodeRegistry) (op : TXOpCode)
    (rest : List TXOpCode) (ctx : TXExecutionContext) (stack : Array TXValue)
    (sp : Int) (f : TXNodeFn) (hf : reg op = some (some f)) (h2 : sp < 2) :
    execLoop reg (op :: rest) ctx stack sp =
      ⟨[], [], Except.error (TXFault.stackUnderflow op)⟩ := by
  simp [execLoop, Get, hf, h2]

theorem execLoop_cons_overflow (reg : TXNodeRegistry) (op : TXOpCode)
    (rest : List TXOpCode) (ctx : TXExecutionContext) (stack : Array TXValue)
    (sp : Int) (f : TXNodeFn) (hf : reg op = some (some f)) (h2 : ¬ sp < 2)
    (h64 : 64 < sp) :
    execLoop reg (op :: rest) ctx stack sp =
      ⟨[], [], Except.error (TXFault.stackOverflow op)⟩ := by
  simp [execLoop, Get, hf, h2, h64]

theorem execLoop_cons_step (reg : TXNodeRegistry) (op : TXOpCode)
    (rest : List TXOpCode) (ctx : TXExecutionContext) (stack : Array TXValue)
    (sp : Int) (f : TXNodeFn) (hf : reg op = some (some f)) (h2 : ¬ sp < 2)
    (h64 : ¬ 64 < sp) :
    execLoop reg (op :: rest) ctx stack sp =
      ⟨op :: (execLoop reg rest
          (f ctx (stack.getD (sp - 2).toNat default)
            (stack.getD ((sp - 2).toNat + 1) default)).1
          (stack.setD (sp - 2).toNat
            (f ctx (stack.getD (sp - 2).toNat default)
              (stack.getD ((sp - 2).toNat + 1) default)).2.1)
          (sp - 1)).trace,
        (f ctx (stack.getD (sp - 2).toNat default)
            (stack.getD ((sp - 2).toNat + 1) default)).2.2 ++
          (execLoop reg rest
            (f ctx (stack.getD (sp - 2).toNat default)
              (stack.getD ((sp - 2).toNat + 1) default)).1
            (stack.setD (sp - 2).toNat
              (f ctx (stack.getD (sp - 2).toNat default)
                (stack.getD ((sp - 2).toNat + 1) default)).2.1)
            (sp - 1)).output,
        (execLoop reg rest
          (f ctx (stack.getD (sp - 2).toNat default)
            (stack.getD ((sp - 2).toNat + 1) default)).1
          (stack.setD (sp - 2).toNat
            (f ctx (stack.getD (sp - 2).toNat default)
              (stack.getD ((sp - 2).toNat + 1) default)).2.1)
          (sp - 1)).result⟩ := by
  simp [execLoop, Get, hf, h2, h64]

theorem execLoop_wellFormed (reg : TXNodeRegistry) :
    ∀ (instrs : List TXOpCode) (ctx : TXExecutionContext)
      (stack : Array TXValue) (sp : Int),
      (∀ op ∈ instrs, ∃ f, reg op = some (some f)) →
      noStackFault (execLoop reg instrs ctx stack sp) →
      ∃ c s, (execLoop reg instrs ctx stack sp).result =
        Except.ok (c, s, sp - instrs.length) := by
  intro instrs
  induction instrs with
  | nil =>
    intro ctx stack sp _ _
    exact ⟨ctx, stack, by simp [execLoop]⟩
  | cons op rest ih =>
    intro ctx stack sp hbound hsafe
    obtain ⟨f, hf⟩ := hbound op (List.mem_cons_self op rest)
    by_cases h2 : sp < 2
    · exact absurd
        (by rw [execLoop_cons_underflow reg op rest ctx stack sp f hf h2])
        ((hsafe op).1)
    by_cases h64 : 64 < sp
    · exact absurd
        (by rw [execLoop_cons_overflow reg op rest ctx stack sp f hf h2 h64])
        ((hsafe op).2)
    have hres : (execLoop reg (op :: rest) ctx stack sp).result =
        (execLoop reg rest
          (f ctx (stack.getD (sp - 2).toNat default)
            (stack.getD ((sp - 2).toNat + 1) default)).1
          (stack.setD (sp - 2).toNat
            (f ctx (stack.getD (sp - 2).toNat default)
              (stack.getD ((sp - 2).toNat + 1) default)).2.1)
          (sp - 1)).result := by
      rw [execLoop_cons_step reg op rest ctx stack sp f hf h2 h64]
    obtain ⟨c, s, hok⟩ := ih
      (f ctx (stack.getD (sp - 2).toNat default)
        (stack.getD ((sp - 2).toNat + 1) default)).1
      (stack.setD (sp - 2).toNat
        (f ctx (stack.getD (sp - 2).toNat default)
          (stack.getD ((sp - 2).toNat + 1) default)).2.1)
      (sp - 1)
      (fun o ho => hbound o (List.mem_cons_of_mem op ho))
      (fun o => by
        have h := hsafe o
        rw [hres] at h
        exact h)
    refine ⟨c, s, ?_⟩
    rw [hres, hok]
    have harith : sp - 1 - (rest.length : Int) = sp - ((op :: rest).length : Int) := by
      simp only [List.length_cons]
      push_cast
      ring
    rw [harith]

theorem execLoop_trace_take (reg : TXNodeRegistry) :
    ∀ (instrs : List TXOpCode) (ctx : TXExecutionContext)
      (stack : Array TXValue) (sp : Int),
      ∃ k, k ≤ instrs.length ∧
        (execLoop reg instrs ctx stack sp).trace = instrs.take k := by
  intro instrs
  induction instrs with
  | nil =>
    intro ctx stack sp
    exact ⟨0, Nat.le_refl 0, by simp [execLoop]⟩
  | cons op rest ih =>
    intro ctx stack sp
    rcases hreg : reg op with _ | fn
    · exact ⟨0, Nat.zero_le _, by
        rw [execLoop_cons_unknown reg op rest ctx stack sp hreg]
        rfl⟩
    rcases fn with _ | f
    · exact ⟨0, Nat.zero_le _, by
        rw [execLoop_cons_empty reg op rest ctx stack sp hreg]
        rfl⟩
    by_cases h2 : sp < 2
    · exact ⟨0, Nat.zero_le _, by
        rw [execLoop_cons_underflow reg op rest ctx stack sp f hreg h2]
        rfl⟩
    by_cases h64 : 64 < sp
    · exact ⟨0, Nat.zero_le _, by
        rw [execLoop_cons_overflow reg op rest ctx stack sp f hreg h2 h64]
        rfl⟩
    obtain ⟨k, hk, htr⟩ := ih
      (f ctx (stack.getD (sp - 2).toNat default)
        (stack.getD ((sp - 2).toNat + 1) default)).1
      (stack.setD (sp - 2).toNat
        (f ctx (stack.getD (sp - 2).toNat default)
          (stack.getD ((sp - 2).toNat + 1) default)).2.1)
      (sp - 1)
    refine ⟨k + 1, Nat.succ_le_succ hk, ?_⟩
    rw [execLoop_cons_step reg op rest ctx stack sp f hreg h2 h64]
    rw [List.take_succ_cons, ← htr]

/-- C1: for every well-formed program (every opcode in Instructions has a
Registry binding and the run suffers no stack underflow or overflow),
Execute terminates normally (Except.ok, the Halted-Normal state) and the
final SP equals the initial SP (which the source fixes at 0) minus the
number of instructions: each opcode consumes 2 values and produces 1, a
net change of -1 per opcode. -/
theorem tx_wellFormed_halts_normal (reg : TXNodeRegistry)
    (bc : TXBlueprintBytecode) (ctx : TXExecutionContext) (st : Array TXValue)
    (hbound : ∀ op ∈ bc.Instructions, ∃ f, reg op = some (some f))
    (hsafe : noStackFault (Execute reg bc ctx st)) :
    ∃ c s, (Execute reg bc ctx st).result =
      Except.ok (c, s, 0 - (bc.Instructions.length : Int)) :=
  execLoop_wellFormed reg bc.Instructions ctx st 0 hbound hsafe

/-- Witness for C1 at a concrete input: with the core registry, the empty
program halts normally with final SP = 0 - 0. -/
theorem tx_wellFormed_halts_normal_witness :
    ∃ c s, (Execute coreRegistry ⟨[], []⟩ ctx0 st0).result =
      Except.ok (c, s, 0 - ((([] : List TXOpCode)).length : Int)) :=
  tx_wellFormed_halts_normal coreRegistry ⟨[], []⟩ ctx0 st0
    (by intro op hop; cases hop)
    (by
      intro op
      constructor
      · intro h
        cases h
      · intro h
        cases h)

/-- C2 (code bug): the spec scenario runs [AddFloat, MulFloat] on a stack
pre-seeded 2, 3, 4 and expects Halted-Normal with final stack 20.  But
Execute gives the caller no way to seed the stack: the stack is a local
array and SP starts at 0, so the very first opcode reads Stack[-2]
(out of bounds; in the embedding, a stackUnderflow fault at
TX_OP_ADD_FLOAT) even when the bottom slots of the array hold 2, 3, 4, and
no behavior is ever dispatched. -/
theorem tx_example_scenario_underflows :
    (Execute coreRegistry ⟨[TX_OP_ADD_FLOAT, TX_OP_MUL_FLOAT], []⟩ ctx0
        seededStack).result =
      Except.error (TXFault.stackUnderflow TX_OP_ADD_FLOAT) ∧
    (Execute coreRegistry ⟨[TX_OP_ADD_FLOAT, TX_OP_MUL_FLOAT], []⟩ ctx0
        seededStack).trace = [] :=
  ⟨rfl, rfl⟩

/-- C3: a program whose first opcode is bound to a behavior (every behavior
needs 2 inputs) faults with stackUnderflow on the empty stack (SP = 0, as
Execute always starts), and the embedded stack access is total: it returns
this fault instead of reading outside the stack array, and no behavior is
dispatched. -/
theorem tx_underflow_on_empty_stack (reg : TXNodeRegistry) (op : TXOpCode)
    (f : TXNodeFn) (rest : List TXOpCode) (cs : List TXValue)
    (ctx : TXExecutionContext) (st : Array TXValue)
    (h : reg op = some (some f)) :
    (Execute reg ⟨op :: rest, cs⟩ ctx st).result =
      Except.error (TXFault.stackUnderflow op) ∧
    (Execute reg ⟨op :: rest, cs⟩ ctx st).trace = [] := by
  have hstep := execLoop_cons_underflow reg op rest ctx st 0 f h (by norm_num)
  constructor
  · show (execLoop reg (op :: rest) ctx st 0).result = _
    rw [hstep]
  · show (execLoop reg (op :: rest) ctx st 0).trace = _
    rw [hstep]

/-- Witness for C3 at a concrete input: AddFloat as the first opcode of a
program run under the core registry. -/
theorem tx_underflow_on_empty_stack_witness :
    (Execute coreRegistry ⟨[TX_OP_ADD_FLOAT], []⟩ ctx0 st0).result =
      Except.error (TXFault.stackUnderflow TX_OP_ADD_FLOAT) ∧
    (Execute coreRegistry ⟨[TX_OP_ADD_FLOAT], []⟩ ctx0 st0).trace = [] :=
  tx_underflow_on_empty_stack coreRegistry TX_OP_ADD_FLOAT addFloatFn [] []
    ctx0 st0 rfl

/-- C4 counterexample: the claim quantifies over every program containing
an unbound opcode, but the unbound opcode only faults if execution reaches
it.  Concretely, opcode 99 has no binding in the core registry, yet the
program [TX_OP_ADD_FLOAT, 99] faults with stackUnderflow at the first
instruction, not with unknownOpcode at 99. -/
theorem tx_unknown_opcode_claim_refuted :
    coreRegistry 99 = none ∧
    (Execute coreRegistry ⟨[TX_OP_ADD_FLOAT, 99], []⟩ ctx0 st0).result =
      Except.error (TXFault.stackUnderflow TX_OP_ADD_FLOAT) ∧
    (Execute coreRegistry ⟨[TX_OP_ADD_FLOAT, 99], []⟩ ctx0 st0).result ≠
      Except.error (TXFault.unknownOpcode 99) := by
  refine ⟨rfl, rfl, ?_⟩
  intro hcontra
  have h1 : (Execute coreRegistry ⟨[TX_OP_ADD_FLOAT, 99], []⟩ ctx0 st0).result =
      Except.error (TXFault.stackUnderflow TX_OP_ADD_FLOAT) := rfl
  rw [h1] at hcontra
  injection hcontra with h2
  exact absurd h2 (by decide)

/-- C4 amended: when the unbound opcode is reached (with no earlier fault;
in this code that means it is the first instruction), Execute faults with
unknownOpcode at that instruction and dispatches no behavior at all; and
Get on an unbound opcode fails with unknownOpcode rather than returning a
behavior. -/
theorem tx_unknown_first_instruction_faults (reg : TXNodeRegistry)
    (op : TXOpCode) (rest : List TXOpCode) (cs : List TXValue)
    (ctx : TXExecutionContext) (st : Array TXValue) (h : reg op = none) :
    Get reg op = Except.error (TXFault.unknownOpcode op) ∧
    (Execute reg ⟨op :: rest, cs⟩ ctx st).result =
      Except.error (TXFault.unknownOpcode op) ∧
    (Execute reg ⟨op :: rest, cs⟩ ctx st).trace = [] := by
  have hstep := execLoop_cons_unknown reg op rest ctx st 0 h
  refine ⟨by simp [Get, h], ?_, ?_⟩
  · show (execLoop reg (op :: rest) ctx st 0).result = _
    rw [hstep]
  · show (execLoop reg (op :: rest) ctx st 0).trace = _
    rw [hstep]

/-- Witness for the amended C4 at a concrete input: opcode 99 is unbound
in the core registry and as first instruction faults with unknownOpcode,
dispatching nothing. -/
theorem tx_unknown_first_instruction_faults_witness :
    Get coreRegistry 99 = Except.error (TXFault.unknownOpcode 99) ∧
    (Execute coreRegistry ⟨[99, TX_OP_ADD_FLOAT], []⟩ ctx0 st0).result =
      Except.error (TXFault.unknownOpcode 99) ∧
    (Execute coreRegistry ⟨[99, TX_OP_ADD_FLOAT], []⟩ ctx0 st0).trace = [] :=
  tx_unknown_first_instruction_faults coreRegistry 99 [TX_OP_ADD_FLOAT] []
    ctx0 st0 rfl

/-- C5: Get after RegisterNode(op, f) returns exactly f, and after a
subsequent RegisterNode(op, g) it returns exactly g — the last
registration silently replaces the previous binding. -/
theorem tx_register_lookup_last_write_wins (reg : TXNodeRegistry)
    (op : TXOpCode) (f g : TXNodeFunction) :
    Get (RegisterNode reg op f) op = Except.ok f ∧
    Get (RegisterNode (RegisterNode reg op f) op g) op = Except.ok g := by
  constructor <;> simp [Get, RegisterNode]

/-- C6: execution is deterministic.  For one registry, one program and one
context, two Execute calls — even with different indeterminate initial
contents of the uninitialized local stack array — perform the same
sequence of behavior invocations, emit the same output, fault identically,
and leave identical observable final stack contents. -/
theorem tx_execute_deterministic (reg : TXNodeRegistry)
    (bc : TXBlueprintBytecode) (ctx : TXExecutionContext)
    (st₁ st₂ : Array TXValue) :
    observe (Execute reg bc ctx st₁) = observe (Execute reg bc ctx st₂) := by
  rcases bc with ⟨instrs, cs⟩
  rcases instrs with _ | ⟨op, rest⟩
  · simp [Execute, execLoop, observe, stackView, Except.map]
  rcases hreg : reg op with _ | fn
  · show observe (execLoop reg (op :: rest) ctx st₁ 0) =
      observe (execLoop reg (op :: rest) ctx st₂ 0)
    rw [execLoop_cons_unknown reg op rest ctx st₁ 0 hreg,
      execLoop_cons_unknown reg op rest ctx st₂ 0 hreg]
  rcases fn with _ | f
  · show observe (execLoop reg (op :: rest) ctx st₁ 0) =
      observe (execLoop reg (op :: rest) ctx st₂ 0)
    rw [execLoop_cons_empty reg op rest ctx st₁ 0 hreg,
      execLoop_cons_empty reg op rest ctx st₂ 0 hreg]
  · show observe (execLoop reg (op :: rest) ctx st₁ 0) =
      observe (execLoop reg (op :: rest) ctx st₂ 0)
    rw [execLoop_cons_underflow reg op rest ctx st₁ 0 f hreg (by norm_num),
      execLoop_cons_underflow reg op rest ctx st₂ 0 f hreg (by norm_num)]

/-- C7: Execute is a total function (it is defined by structural recursion
over Instructions), and every run is one straight-line pass in program
order: the trace of invoked behaviors is an initial segment of
Instructions — the instruction pointer advances by one opcode per step,
never loops or branches, and execution stops at the end of Instructions or
at the first fault. -/
theorem tx_execute_straight_line (reg : TXNodeRegistry)
    (bc : TXBlueprintBytecode) (ctx : TXExecutionContext)
    (st : Array TXValue) :
    ∃ k, k ≤ bc.Instructions.length ∧
      (Execute reg bc ctx st).trace = bc.Instructions.take k :=
  execLoop_trace_take reg bc.Instructions ctx st 0

/-- C8: Execute never reads the Constants pool: two bytecode programs with
the same Instructions and arbitrary different Constants give literally
identical outcomes (same invocations, same output, same final stack). -/
theorem tx_constants_never_read (reg : TXNodeRegistry)
    (instrs : List TXOpCode) (cs₁ cs₂ : List TXValue)
    (ctx : TXExecutionContext) (st : Array TXValue) :
    Execute reg ⟨instrs, cs₁⟩ ctx st = Execute reg ⟨instrs, cs₂⟩ ctx st := rfl

/-- C9: in the NDEBUG build Get on an unbound opcode mutates the registry:
operator[] inserts a default-constructed empty function, so afterwards the
map contains a binding for that opcode (the empty function), the reference
returned is that empty function, and executing that opcode through the
updated registry faults (std::bad_function_call) without dispatching any
registered behavior. -/
theorem tx_getnd_inserts_empty_binding (reg : TXNodeRegistry) (op : TXOpCode)
    (rest : List TXOpCode) (cs : List TXValue) (ctx : TXExecutionContext)
    (st : Array TXValue) (h : reg op = none) :
    (GetND reg op).1 op = some none ∧
    (GetND reg op).2 = none ∧
    (Execute (GetND reg op).1 ⟨op :: rest, cs⟩ ctx st).result =
      Except.error (TXFault.badFunctionCall op) ∧
    (Execute (GetND reg op).1 ⟨op :: rest, cs⟩ ctx st).trace = [] := by
  have h1 : (GetND reg op).1 op = some none := by simp [GetND, h]
  have hstep := execLoop_cons_empty (GetND reg op).1 op rest ctx st 0 h1
  refine ⟨h1, by simp [GetND, h], ?_, ?_⟩
  · show (execLoop (GetND reg op).1 (op :: rest) ctx st 0).result = _
    rw [hstep]
  · show (execLoop (GetND reg op).1 (op :: rest) ctx st 0).trace = _
    rw [hstep]

/-- Witness for C9 at a concrete input: opcode 7 is unbound in the empty
registry. -/
theorem tx_getnd_inserts_empty_binding_witness :
    (GetND emptyRegistry 7).1 7 = some none ∧
    (GetND emptyRegistry 7).2 = none ∧
    (Execute (GetND emptyRegistry 7).1 ⟨[7], []⟩ ctx0 st0).result =
      Except.error (TXFault.badFunctionCall 7) ∧
    (Execute (GetND emptyRegistry 7).1 ⟨[7], []⟩ ctx0 st0).trace = [] :=
  tx_getnd_inserts_empty_binding emptyRegistry 7 [] [] ctx0 st0 rfl

/-- C10: the registered AddFloat behavior maps any context and any two
input values to one output value tagged Float whose Float payload is the
sum of the inputs' Float payloads, and MulFloat does the same with the
product; both return the context unchanged, depend on it in no way, and
emit no host output.  The registrations themselves are recorded in the
core registry. -/
theorem tx_core_float_behaviors (ctx : TXExecutionContext) (a b : TXValue) :
    coreRegistry TX_OP_ADD_FLOAT = some (some addFloatFn) ∧
    coreRegistry TX_OP_MUL_FLOAT = some (some mulFloatFn) ∧
    addFloatFn ctx a b =
      (ctx, ⟨TXValueType.Float,
        TXPayload.float (floatPayload a + floatPayload b)⟩, []) ∧
    mulFloatFn ctx a b =
      (ctx, ⟨TXValueType.Float,
        TXPayload.float (floatPayload a * floatPayload b)⟩, []) :=
  ⟨rfl, rfl, rfl, rfl⟩
